import Mathlib

/-!
Shallow embedding of `src/note-mouse-handler.js`: the pointer-driven
interaction engine of a grid-quantized note editor.  Coordinates are
rationals (JavaScript numbers carrying exact pixel arithmetic in the
ranges exercised here).  Each handler method becomes a pure function
from handler state and event data to the new state together with the
list of listener calls ("intents") it emits; a JavaScript runtime
fault (reading a property of `undefined`) is modelled by `Option`.
-/

namespace Signal

/-- A container-local point `{x, y}`. -/
@[ext]
structure Point where
  x : ℚ
  y : ℚ
  deriving DecidableEq

/-- A rectangle `{x, y, width, height}`; also used for note bounds. -/
@[ext]
structure Rect where
  x : ℚ
  y : ℚ
  width : ℚ
  height : ℚ
  deriving DecidableEq

/-- A note as seen through `listener.notes`: identity plus its
representative point `(x, y)`. -/
structure Note where
  noteId : ℕ
  x : ℚ
  y : ℚ
  deriving DecidableEq

/-- Modelled from the spec: the `Rect` class is not under `src/`; §4.4
describes the selection test as a containment test of the representative
point of each note, so `containsPoint` is inclusive containment of a
point in the span of the rectangle. -/
def Rect.containsPoint (r : Rect) (p : Point) : Bool :=
  decide (r.x ≤ p.x) && decide (p.x ≤ r.x + r.width) &&
  decide (r.y ≤ p.y) && decide (p.y ≤ r.y + r.height)

/-- Modelled from the spec: `Rect.fromPoints` is not under `src/`; §4.4
describes it as "a rectangle spanning from the original down point to the
current point (normalizing for drag direction)". -/
def Rect.fromPoints (p1 p2 : Point) : Rect :=
  ⟨min p1.x p2.x, min p1.y p2.y, |p1.x - p2.x|, |p1.y - p2.y|⟩

/-- The quantizer interface consumed by both handlers
(`quantizer.{floorX, floorY, roundX, roundY, unitX, unitY}`). -/
structure Quantizer where
  floorX : ℚ → ℚ
  floorY : ℚ → ℚ
  roundX : ℚ → ℚ
  roundY : ℚ → ℚ
  unitX : ℚ
  unitY : ℚ

/-- Modelled from the spec: the `quantizer` global is not under `src/`;
§4.1 describes `floorX`/`floorY` as mapping a coordinate "down to the
start of its containing grid cell" and `roundX`/`roundY` as mapping "to
the nearest grid line", with `unitX`/`unitY` the step sizes. -/
def specQuantizer (ux uy : ℚ) : Quantizer where
  floorX := fun v => (⌊v / ux⌋ : ℚ) * ux
  floorY := fun v => (⌊v / uy⌋ : ℚ) * uy
  roundX := fun v => ((round (v / ux) : ℤ) : ℚ) * ux
  roundY := fun v => ((round (v / uy) : ℤ) : ℚ) * uy
  unitX := ux
  unitY := uy

/-- `DRAG_POSITION`: which region of a note a pointer-down landed on. -/
inductive DragPositionType where
  | LEFT_EDGE
  | CENTER
  | RIGHT_EDGE
  deriving DecidableEq

/-- `{x, y, width}` passed to `onCreateNote`. -/
structure CreateBounds where
  x : ℚ
  y : ℚ
  width : ℚ
  deriving DecidableEq

/-- One listener call emitted by a handler; the `ClickNotes` payload
carries an opaque token standing for the originating event. -/
inductive Intent where
  | CreateNote : CreateBounds → Intent
  | ResizeNote : ℕ → Rect → Intent
  | MoveNotes : List Note → Point → Intent
  | SelectNotes : List Note → Intent
  | ClickNotes : List Note → ℕ → Intent
  deriving DecidableEq

/-! ## PencilMouseHandler -/

/-- The note object an event targets: `noteId`, position and
`getBounds()` size. -/
structure NoteTarget where
  noteId : ℕ
  x : ℚ
  y : ℚ
  width : ℚ
  height : ℚ
  deriving DecidableEq

/-- A pointer event delivered to a note: `localX`/`localY` are the
note-local pointer coordinates, `p` is the container-local pointer
position `container.globalToLocal(e.stageX, e.stageY)` (the coordinate
conversion itself is external). -/
structure NoteEvent where
  target : NoteTarget
  localX : ℚ
  localY : ℚ
  p : Point
  deriving DecidableEq

/-- `this.dragPosition`: the drag session captured at pointer-down. -/
structure DragPosition where
  x : ℚ
  y : ℚ
  type : DragPositionType
  deriving DecidableEq

/-- The mutable state of the pencil handler: `dragPosition` is absent
(`undefined` in JavaScript) until the first `onMouseDownNote`. -/
structure PencilState where
  dragPosition : Option DragPosition
  deriving DecidableEq

/-- `PencilMouseHandler.getDragPositionType(localX, noteWidth)`. -/
def getDragPositionType (localX noteWidth : ℚ) : DragPositionType :=
  let edgeSize := min (noteWidth / 3) 8
  if localX ≤ edgeSize then .LEFT_EDGE
  else if noteWidth - localX ≤ edgeSize then .RIGHT_EDGE
  else .CENTER

/-- `PencilMouseHandler.onMouseDownNote(e)`: record the drag session,
classifying the note-local X offset against the width of the target. -/
def onMouseDownNote (_s : PencilState) (e : NoteEvent) : PencilState :=
  { dragPosition := some ⟨e.localX, e.localY, getDragPositionType e.localX e.target.width⟩ }

/-- The bounds computed by the `switch (this.dragPosition.type)` block of
`onPressMoveNote`, given the stored drag session `d`, the event target
and the container-local pointer `p`. -/
def pressMoveBounds (q : Quantizer) (d : DragPosition) (t : NoteTarget) (p : Point) : Rect :=
  let bounds : Rect := ⟨t.x, t.y, t.width, t.height⟩
  let qx := q.roundX p.x
  match d.type with
  | .LEFT_EDGE => { bounds with width := bounds.width + bounds.x - qx, x := qx }
  | .RIGHT_EDGE => { bounds with width := qx - bounds.x }
  | .CENTER => { bounds with x := q.roundX (p.x - d.x), y := q.roundY (p.y - d.y) }

/-- `PencilMouseHandler.onPressMoveNote(e)`: with no recorded drag
session the JavaScript code reads `this.dragPosition.type` on
`undefined` and faults (`none`); otherwise it emits one `onResizeNote`
and leaves the handler state untouched. -/
def onPressMoveNote (q : Quantizer) (s : PencilState) (e : NoteEvent) :
    Option (PencilState × List Intent) :=
  match s.dragPosition with
  | none => none
  | some d => some (s, [Intent.ResizeNote e.target.noteId (pressMoveBounds q d e.target e.p)])

/-- A pencil-mode pointer-down on the stage: `targetIsContainer` is the
`e.target == this.container` test, `p` the container-local position. -/
structure PencilDownEvent where
  targetIsContainer : Bool
  p : Point
  deriving DecidableEq

/-- `PencilMouseHandler.onMouseDown(e)`: create a floor-quantized note of
default width `unitX` when the pointer-down targets the background
container, nothing otherwise. -/
def pencilOnMouseDown (q : Quantizer) (e : PencilDownEvent) : List Intent :=
  if e.targetIsContainer then
    [Intent.CreateNote ⟨q.floorX e.p.x, q.floorY e.p.y, q.unitX⟩]
  else []

/-- Run a sequence of `onPressMoveNote` events, threading the state and
concatenating the emitted intents; `none` if any step faults. -/
def pencilRunMoves (q : Quantizer) (s : PencilState) : List NoteEvent →
    Option (PencilState × List Intent)
  | [] => some (s, [])
  | e :: rest =>
    match onPressMoveNote q s e with
    | none => none
    | some (s1, out) =>
      match pencilRunMoves q s1 rest with
      | none => none
      | some (s2, outs) => some (s2, out ++ outs)

/-! ## SelectionMouseHandler -/

/-- The state of the selection handler: the rectangle of the selection
view and its `fixed`/`visible` flags, the selected notes, the
`isMouseDown` flag, and the per-gesture `start` point and `dragOffset`. -/
structure SelectionState where
  rect : Rect
  fixed : Bool
  visible : Bool
  selectedNotes : List Note
  isMouseDown : Bool
  start : Point
  dragOffset : Point
  deriving DecidableEq

/-- `SelectionMouseHandler.onMouseDown(e)`: record the gesture start; a
down outside the current rectangle resets it to an invisible, unfixed,
zero-size rectangle at the down point and announces an empty selection;
the drag offset is then taken from the (possibly reset) rectangle. -/
def selOnMouseDown (s : SelectionState) (p : Point) : SelectionState × List Intent :=
  let s1 := { s with isMouseDown := true, start := p }
  if s1.rect.containsPoint p then
    ({ s1 with dragOffset := ⟨p.x - s1.rect.x, p.y - s1.rect.y⟩ }, [])
  else
    let s2 := { s1 with fixed := false, visible := false,
                        rect := ⟨p.x, p.y, 0, 0⟩ }
    ({ s2 with dragOffset := ⟨p.x - s2.rect.x, p.y - s2.rect.y⟩ },
     [Intent.SelectNotes []])

/-- The marquee rectangle the unfixed branch of `onMouseMove` builds from
the gesture start and the current pointer: quantize both ends of the span
independently; a dimension that quantizes to `0` (JavaScript `|| unit`)
falls back to one grid unit. -/
def marqueeRect (q : Quantizer) (start loc : Point) : Rect :=
  let r := Rect.fromPoints start loc
  let bx := q.roundX r.x
  let ry := q.roundY r.y
  let w := q.roundX (r.x + r.width) - bx
  let h := q.roundY (r.y + r.height) - ry
  ⟨bx, ry, if w = 0 then q.unitX else w, if h = 0 then q.unitY else h⟩

/-- `SelectionMouseHandler.onMouseMove(e)`: a no-op without a prior
pointer-down; otherwise make the rectangle visible, then either move the
fixed selection (emitting `onMoveNotes` with the delta from the current
origin to the quantized target origin, delta computed before the
rectangle is updated) or reshape the marquee. -/
def selOnMouseMove (q : Quantizer) (s : SelectionState) (loc : Point) :
    SelectionState × List Intent :=
  if s.isMouseDown = false then (s, [])
  else
    let s1 := { s with visible := true }
    if s1.fixed then
      let qx := q.roundX (loc.x - s1.dragOffset.x)
      let qy := q.roundY (loc.y - s1.dragOffset.y)
      ({ s1 with rect := ⟨qx, qy, s1.rect.width, s1.rect.height⟩ },
       [Intent.MoveNotes s1.selectedNotes ⟨qx - s1.rect.x, qy - s1.rect.y⟩])
    else
      ({ s1 with rect := marqueeRect q s1.start loc }, [])

/-- The representative point of a note. -/
def notePoint (n : Note) : Point := ⟨n.x, n.y⟩

/-- `SelectionMouseHandler.onMouseUp(e)`: if the rectangle is not yet
fixed, fix it, select the notes whose representative point the rectangle
contains (the source filters with `new Rect(selection).containsPoint(n)`,
where the free identifier `selection` denotes the selection rectangle)
and emit `onSelectNotes`; otherwise emit `onClickNotes` — the source
guards this branch with `!this.isMouseMoved`, but `isMouseMoved` is never
assigned anywhere, so the guard always passes.  Note there is no
`isMouseDown` check in either branch. -/
def selOnMouseUp (notes : List Note) (s : SelectionState) (ev : ℕ) :
    SelectionState × List Intent :=
  if s.fixed = false then
    let sel := notes.filter (fun n => s.rect.containsPoint (notePoint n))
    ({ s with fixed := true, selectedNotes := sel, isMouseDown := false },
     [Intent.SelectNotes sel])
  else
    ({ s with isMouseDown := false }, [Intent.ClickNotes s.selectedNotes ev])

/-- Run a sequence of `onMouseMove` events, keeping only the final state. -/
def selRunMoves (q : Quantizer) : SelectionState → List Point → SelectionState
  | s, [] => s
  | s, l :: rest => selRunMoves q (selOnMouseMove q s l).1 rest

/-! ## Theorems -/

/-- C2: the drag classifier computes `edgeSize = min(w/3, 8)` and
returns LeftEdge when `o ≤ edgeSize`, RightEdge when `o > edgeSize` and
`w - o ≤ edgeSize`, and Center otherwise; at `o = 0` it returns LeftEdge
(for any non-negative note width), at `o = w` it returns RightEdge (for
any positive note width), for `w ≥ 16` every `o` with `8 < o < w - 8`
yields Center, and whenever both edge conditions hold the result is
LeftEdge (first-checked wins). -/
theorem getDragPositionType_spec :
    (∀ o w : ℚ,
      (o ≤ min (w / 3) 8 → getDragPositionType o w = .LEFT_EDGE) ∧
      (¬ o ≤ min (w / 3) 8 → w - o ≤ min (w / 3) 8 →
        getDragPositionType o w = .RIGHT_EDGE) ∧
      (¬ o ≤ min (w / 3) 8 → ¬ w - o ≤ min (w / 3) 8 →
        getDragPositionType o w = .CENTER)) ∧
    (∀ w : ℚ, 0 ≤ w → getDragPositionType 0 w = .LEFT_EDGE) ∧
    (∀ w : ℚ, 0 < w → getDragPositionType w w = .RIGHT_EDGE) ∧
    (∀ w o : ℚ, 16 ≤ w → 8 < o → o < w - 8 → getDragPositionType o w = .CENTER) ∧
    (∀ o w : ℚ, o ≤ min (w / 3) 8 → w - o ≤ min (w / 3) 8 →
      getDragPositionType o w = .LEFT_EDGE) := by
  refine ⟨fun o w => ⟨?_, ?_, ?_⟩, ?_, ?_, ?_, ?_⟩
  · intro h; simp [getDragPositionType, h]
  · intro h1 h2; simp [getDragPositionType, h1, h2]
  · intro h1 h2; simp [getDragPositionType, h1, h2]
  · intro w hw
    have h : (0 : ℚ) ≤ min (w / 3) 8 := le_min (by linarith) (by norm_num)
    simp [getDragPositionType, h]
  · intro w hw
    have h1 : ¬ w ≤ min (w / 3) 8 := by
      intro h
      have h2 := le_trans h (min_le_left (w / 3) 8)
      linarith
    have h0 : (0 : ℚ) ≤ w / 3 := by linarith
    simp [getDragPositionType, h1, h0]
  · intro w o hw ho1 ho2
    have h1 : ¬ o ≤ min (w / 3) 8 := by
      intro h
      have h3 := le_trans h (min_le_right (w / 3) 8)
      linarith
    have h2 : ¬ w - o ≤ min (w / 3) 8 := by
      intro h
      have h3 := le_trans h (min_le_right (w / 3) 8)
      linarith
    simp [getDragPositionType, h1, h2]
  · intro o w h1 _h2
    simp [getDragPositionType, h1]

/-- Witness for C2: each clause of `getDragPositionType_spec` applied at
a concrete input with its hypotheses discharged. -/
theorem getDragPositionType_spec_witness :
    getDragPositionType 2 40 = .LEFT_EDGE ∧
    getDragPositionType 35 40 = .RIGHT_EDGE ∧
    getDragPositionType 20 40 = .CENTER ∧
    getDragPositionType 0 40 = .LEFT_EDGE ∧
    getDragPositionType 40 40 = .RIGHT_EDGE ∧
    getDragPositionType 12 30 = .CENTER ∧
    getDragPositionType 0 0 = .LEFT_EDGE := by
  refine ⟨?_, ?_, ?_, ?_, ?_, ?_, ?_⟩
  · exact (getDragPositionType_spec.1 2 40).1 (by norm_num [min_def])
  · exact (getDragPositionType_spec.1 35 40).2.1 (by norm_num [min_def]) (by norm_num [min_def])
  · exact (getDragPositionType_spec.1 20 40).2.2 (by norm_num [min_def]) (by norm_num [min_def])
  · exact getDragPositionType_spec.2.1 40 (by norm_num)
  · exact getDragPositionType_spec.2.2.1 40 (by norm_num)
  · exact getDragPositionType_spec.2.2.2.1 30 12 (by norm_num) (by norm_num) (by norm_num)
  · exact getDragPositionType_spec.2.2.2.2 0 0 (by norm_num) (by norm_num)

/-- C8: a pencil-mode pointer-down whose target is the background
container emits exactly one `onCreateNote`, with `x = floorX` and
`y = floorY` of the container-local pointer position and
`width = unitX`. -/
theorem pencil_create_on_background (q : Quantizer) (e : PencilDownEvent)
    (h : e.targetIsContainer = true) :
    pencilOnMouseDown q e =
      [Intent.CreateNote ⟨q.floorX e.p.x, q.floorY e.p.y, q.unitX⟩] := by
  simp [pencilOnMouseDown, h]

/-- Witness for C8: with `unitX = 10`, `unitY = 12`, a pointer-down on
the background at local `(23, 5)` yields `onCreateNote {x := 20, y := 0,
width := 10}`. -/
theorem pencil_create_on_background_witness :
    pencilOnMouseDown (specQuantizer 10 12) ⟨true, ⟨23, 5⟩⟩ =
      [Intent.CreateNote ⟨20, 0, 10⟩] := by
  rw [pencil_create_on_background (specQuantizer 10 12) ⟨true, ⟨23, 5⟩⟩ rfl]
  norm_num [specQuantizer]

/-- C3: during a LeftEdge drag every emitted resize keeps the right edge
fixed (`new x + new width = old x + old width`, with `new x` the
round-quantized pointer X); during a RightEdge drag every emitted resize
leaves `x` unchanged and sets `width = quantized pointer X - x`. -/
theorem edge_resize_invariants (q : Quantizer) (s : PencilState) (e : NoteEvent)
    (d : DragPosition) (hd : s.dragPosition = some d) :
    (d.type = .LEFT_EDGE →
      ∃ b : Rect,
        onPressMoveNote q s e = some (s, [Intent.ResizeNote e.target.noteId b]) ∧
        b.x = q.roundX e.p.x ∧
        b.x + b.width = e.target.x + e.target.width ∧
        b.y = e.target.y ∧ b.height = e.target.height) ∧
    (d.type = .RIGHT_EDGE →
      ∃ b : Rect,
        onPressMoveNote q s e = some (s, [Intent.ResizeNote e.target.noteId b]) ∧
        b.x = e.target.x ∧
        b.width = q.roundX e.p.x - e.target.x ∧
        b.y = e.target.y ∧ b.height = e.target.height) := by
  constructor
  · intro ht
    refine ⟨pressMoveBounds q d e.target e.p, by simp [onPressMoveNote, hd], ?_, ?_, ?_, ?_⟩
    · simp [pressMoveBounds, ht]
    · simp [pressMoveBounds, ht]; ring
    · simp [pressMoveBounds, ht]
    · simp [pressMoveBounds, ht]
  · intro ht
    refine ⟨pressMoveBounds q d e.target e.p, by simp [onPressMoveNote, hd], ?_, ?_, ?_, ?_⟩
    · simp [pressMoveBounds, ht]
    · simp [pressMoveBounds, ht]
    · simp [pressMoveBounds, ht]
    · simp [pressMoveBounds, ht]

/-- Witness for C3: the spec example — note `{x:100, y:0, width:40}`,
LeftEdge session, pointer at local `130` (which quantizes to `130` on a
10-pixel grid) gives a resize with `x = 130` and right edge still at
`140`; a RightEdge session at the same pointer keeps `x = 100`. -/
theorem edge_resize_invariants_witness :
    (∃ b : Rect,
      onPressMoveNote (specQuantizer 10 12) ⟨some ⟨2, 0, .LEFT_EDGE⟩⟩
          ⟨⟨1, 100, 0, 40, 12⟩, 32, 0, ⟨130, 0⟩⟩ =
        some (⟨some ⟨2, 0, .LEFT_EDGE⟩⟩, [Intent.ResizeNote 1 b]) ∧
      b.x = (specQuantizer 10 12).roundX 130 ∧
      b.x + b.width = 100 + 40 ∧ b.y = 0 ∧ b.height = 12) ∧
    (∃ b : Rect,
      onPressMoveNote (specQuantizer 10 12) ⟨some ⟨38, 0, .RIGHT_EDGE⟩⟩
          ⟨⟨1, 100, 0, 40, 12⟩, 32, 0, ⟨130, 0⟩⟩ =
        some (⟨some ⟨38, 0, .RIGHT_EDGE⟩⟩, [Intent.ResizeNote 1 b]) ∧
      b.x = 100 ∧ b.width = (specQuantizer 10 12).roundX 130 - 100 ∧
      b.y = 0 ∧ b.height = 12) :=
  ⟨(edge_resize_invariants (specQuantizer 10 12) ⟨some ⟨2, 0, .LEFT_EDGE⟩⟩
      ⟨⟨1, 100, 0, 40, 12⟩, 32, 0, ⟨130, 0⟩⟩ ⟨2, 0, .LEFT_EDGE⟩ rfl).1 rfl,
   (edge_resize_invariants (specQuantizer 10 12) ⟨some ⟨38, 0, .RIGHT_EDGE⟩⟩
      ⟨⟨1, 100, 0, 40, 12⟩, 32, 0, ⟨130, 0⟩⟩ ⟨38, 0, .RIGHT_EDGE⟩ rfl).2 rfl⟩

/-- C10: during a Center drag every pointer-move emits exactly one
`onResizeNote` (never `onMoveNotes`) whose width and height equal the
current width and height of the dragged note; only `x` and `y` change,
to the round-quantized pointer position minus the stored in-note
offset. -/
theorem center_drag_resize (q : Quantizer) (s : PencilState) (e : NoteEvent)
    (d : DragPosition) (hd : s.dragPosition = some d) (hc : d.type = .CENTER) :
    onPressMoveNote q s e = some (s, [Intent.ResizeNote e.target.noteId
      ⟨q.roundX (e.p.x - d.x), q.roundY (e.p.y - d.y),
       e.target.width, e.target.height⟩]) := by
  simp [onPressMoveNote, hd, pressMoveBounds, hc]

/-- Witness for C10: a Center drag of note 2 (bounds `(100, 24, 40, 12)`)
with stored offset `(5, 3)` and pointer at `(117, 31)` emits a resize to
`(110, 24)` with width and height unchanged. -/
theorem center_drag_resize_witness :
    onPressMoveNote (specQuantizer 10 12) ⟨some ⟨5, 3, .CENTER⟩⟩
        ⟨⟨2, 100, 24, 40, 12⟩, 17, 7, ⟨117, 31⟩⟩ =
      some (⟨some ⟨5, 3, .CENTER⟩⟩, [Intent.ResizeNote 2 ⟨110, 24, 40, 12⟩]) := by
  rw [center_drag_resize (specQuantizer 10 12) ⟨some ⟨5, 3, .CENTER⟩⟩
    ⟨⟨2, 100, 24, 40, 12⟩, 17, 7, ⟨117, 31⟩⟩ ⟨5, 3, .CENTER⟩ rfl rfl]
  norm_num [specQuantizer, round_eq]

/-- Running any list of press-moves from a state with a stored drag
session leaves the session untouched and emits, for each move, one
resize whose bounds are computed from that stored session. -/
theorem pencilRunMoves_some (q : Quantizer) (d : DragPosition) (es : List NoteEvent) :
    ∀ s : PencilState, s.dragPosition = some d →
      pencilRunMoves q s es = some (s, es.map fun e =>
        Intent.ResizeNote e.target.noteId (pressMoveBounds q d e.target e.p)) := by
  induction es with
  | nil => intro s hd; simp [pencilRunMoves]
  | cons e rest ih =>
    intro s hd
    simp [pencilRunMoves, onPressMoveNote, hd, ih s hd]

/-- C1: the region type of a pencil drag is computed exactly once at
pointer-down, from the note-local X offset and the width of the target;
every subsequent press-move of the drag leaves the stored session
unchanged and derives its emitted bounds from that stored type alone,
never reclassifying the live pointer position. -/
theorem drag_type_captured_once (q : Quantizer) (s : PencilState) (e0 : NoteEvent)
    (es : List NoteEvent) :
    pencilRunMoves q (onMouseDownNote s e0) es =
      some (onMouseDownNote s e0, es.map fun e =>
        Intent.ResizeNote e.target.noteId
          (pressMoveBounds q
            ⟨e0.localX, e0.localY, getDragPositionType e0.localX e0.target.width⟩
            e.target e.p)) :=
  pencilRunMoves_some q _ es _ rfl

/-- C4: a pointer-move with the selection rectangle fixed emits exactly
one `onMoveNotes`, with the currently selected notes and the delta from
the current rectangle origin to the quantized target origin (the
round-quantized pointer position minus the drag offset recorded at
pointer-down); immediately afterwards the rectangle origin has moved by
exactly that delta and its width and height are unchanged. -/
theorem fixed_selection_drag_move (q : Quantizer) (s : SelectionState) (loc : Point)
    (hdown : s.isMouseDown = true) (hfix : s.fixed = true) :
    (selOnMouseMove q s loc).2 =
      [Intent.MoveNotes s.selectedNotes
        ⟨q.roundX (loc.x - s.dragOffset.x) - s.rect.x,
         q.roundY (loc.y - s.dragOffset.y) - s.rect.y⟩] ∧
    (selOnMouseMove q s loc).1.rect.x =
      s.rect.x + (q.roundX (loc.x - s.dragOffset.x) - s.rect.x) ∧
    (selOnMouseMove q s loc).1.rect.y =
      s.rect.y + (q.roundY (loc.y - s.dragOffset.y) - s.rect.y) ∧
    (selOnMouseMove q s loc).1.rect.width = s.rect.width ∧
    (selOnMouseMove q s loc).1.rect.height = s.rect.height ∧
    (selOnMouseMove q s loc).1.selectedNotes = s.selectedNotes := by
  obtain ⟨rect, fixed, visible, sel, down, start, off⟩ := s
  simp only at hdown hfix
  subst hdown hfix
  refine ⟨by simp [selOnMouseMove], ?_, ?_, ?_, ?_, ?_⟩ <;> simp [selOnMouseMove]

/-- Witness for C4: a fixed 50x50 selection at `(20, 20)` with drag
offset `(10, 10)`, pointer at `(47, 55)` on a `(10, 12)` grid: the
selected note moves by `(20, 28)` and the rectangle lands at
`(40, 48)` with its size unchanged. -/
theorem fixed_selection_drag_move_witness :
    (selOnMouseMove (specQuantizer 10 12)
        ⟨⟨20, 20, 50, 50⟩, true, true, [⟨1, 25, 25⟩], true, ⟨30, 30⟩, ⟨10, 10⟩⟩ ⟨47, 55⟩).2 =
      [Intent.MoveNotes [⟨1, 25, 25⟩] ⟨20, 28⟩] ∧
    (selOnMouseMove (specQuantizer 10 12)
        ⟨⟨20, 20, 50, 50⟩, true, true, [⟨1, 25, 25⟩], true, ⟨30, 30⟩, ⟨10, 10⟩⟩ ⟨47, 55⟩).1.rect =
      ⟨40, 48, 50, 50⟩ := by
  have h := fixed_selection_drag_move (specQuantizer 10 12)
    ⟨⟨20, 20, 50, 50⟩, true, true, [⟨1, 25, 25⟩], true, ⟨30, 30⟩, ⟨10, 10⟩⟩ ⟨47, 55⟩ rfl rfl
  obtain ⟨h1, h2, h3, h4, h5, _⟩ := h
  constructor
  · rw [h1]
    norm_num [specQuantizer, round_eq]
  · have hx : ((47 : ℚ) - 10) = 37 := by norm_num
    have hy : ((55 : ℚ) - 10) = 45 := by norm_num
    have hqx : (specQuantizer 10 12).roundX 37 = 40 := by
      norm_num [specQuantizer, round_eq]
    have hqy : (specQuantizer 10 12).roundY 45 = 48 := by
      norm_num [specQuantizer, round_eq]
    ext1
    · rw [h2, hx, hqx]; norm_num
    · rw [h3, hy, hqy]; norm_num
    · rw [h4]
    · rw [h5]

/-- C9: a selection-mode pointer-down outside the current rectangle
resets the selection — the rectangle becomes unfixed and invisible, its
bounds collapse to a zero-size rectangle at the down point, and
`onSelectNotes` is called with the empty set; a pointer-down inside the
rectangle performs none of these resets and emits nothing. -/
theorem selection_down_reset (s : SelectionState) (p : Point) :
    (s.rect.containsPoint p = false →
      (selOnMouseDown s p).2 = [Intent.SelectNotes []] ∧
      (selOnMouseDown s p).1.fixed = false ∧
      (selOnMouseDown s p).1.visible = false ∧
      (selOnMouseDown s p).1.rect = ⟨p.x, p.y, 0, 0⟩) ∧
    (s.rect.containsPoint p = true →
      (selOnMouseDown s p).2 = [] ∧
      (selOnMouseDown s p).1.fixed = s.fixed ∧
      (selOnMouseDown s p).1.visible = s.visible ∧
      (selOnMouseDown s p).1.rect = s.rect ∧
      (selOnMouseDown s p).1.selectedNotes = s.selectedNotes) := by
  obtain ⟨rect, fixed, visible, sel, down, start, off⟩ := s
  constructor
  · intro h
    refine ⟨?_, ?_, ?_, ?_⟩ <;> simp [selOnMouseDown, h]
  · intro h
    refine ⟨?_, ?_, ?_, ?_, ?_⟩ <;> simp [selOnMouseDown, h]

/-- Witness for C9: with rectangle `(0, 0, 10, 10)`, a down at `(50, 50)`
(outside) resets and announces the empty selection; a down at `(5, 5)`
(inside) leaves the flags, the rectangle and the selection untouched and
emits nothing. -/
theorem selection_down_reset_witness :
    ((selOnMouseDown ⟨⟨0, 0, 10, 10⟩, true, true, [⟨1, 2, 3⟩], false, ⟨0, 0⟩, ⟨0, 0⟩⟩
        ⟨50, 50⟩).2 = [Intent.SelectNotes []] ∧
      (selOnMouseDown ⟨⟨0, 0, 10, 10⟩, true, true, [⟨1, 2, 3⟩], false, ⟨0, 0⟩, ⟨0, 0⟩⟩
        ⟨50, 50⟩).1.fixed = false ∧
      (selOnMouseDown ⟨⟨0, 0, 10, 10⟩, true, true, [⟨1, 2, 3⟩], false, ⟨0, 0⟩, ⟨0, 0⟩⟩
        ⟨50, 50⟩).1.visible = false ∧
      (selOnMouseDown ⟨⟨0, 0, 10, 10⟩, true, true, [⟨1, 2, 3⟩], false, ⟨0, 0⟩, ⟨0, 0⟩⟩
        ⟨50, 50⟩).1.rect = ⟨50, 50, 0, 0⟩) ∧
    ((selOnMouseDown ⟨⟨0, 0, 10, 10⟩, true, true, [⟨1, 2, 3⟩], false, ⟨0, 0⟩, ⟨0, 0⟩⟩
        ⟨5, 5⟩).2 = [] ∧
      (selOnMouseDown ⟨⟨0, 0, 10, 10⟩, true, true, [⟨1, 2, 3⟩], false, ⟨0, 0⟩, ⟨0, 0⟩⟩
        ⟨5, 5⟩).1.fixed = true ∧
      (selOnMouseDown ⟨⟨0, 0, 10, 10⟩, true, true, [⟨1, 2, 3⟩], false, ⟨0, 0⟩, ⟨0, 0⟩⟩
        ⟨5, 5⟩).1.visible = true ∧
      (selOnMouseDown ⟨⟨0, 0, 10, 10⟩, true, true, [⟨1, 2, 3⟩], false, ⟨0, 0⟩, ⟨0, 0⟩⟩
        ⟨5, 5⟩).1.rect = ⟨0, 0, 10, 10⟩ ∧
      (selOnMouseDown ⟨⟨0, 0, 10, 10⟩, true, true, [⟨1, 2, 3⟩], false, ⟨0, 0⟩, ⟨0, 0⟩⟩
        ⟨5, 5⟩).1.selectedNotes = [⟨1, 2, 3⟩]) :=
  ⟨(selection_down_reset ⟨⟨0, 0, 10, 10⟩, true, true, [⟨1, 2, 3⟩], false, ⟨0, 0⟩, ⟨0, 0⟩⟩
      ⟨50, 50⟩).1 (by norm_num [Rect.containsPoint]),
   (selection_down_reset ⟨⟨0, 0, 10, 10⟩, true, true, [⟨1, 2, 3⟩], false, ⟨0, 0⟩, ⟨0, 0⟩⟩
      ⟨5, 5⟩).2 (by norm_num [Rect.containsPoint])⟩

/-- An unfixed pointer-move only makes the rectangle visible and
replaces it by the marquee span from the gesture start to the pointer. -/
theorem selOnMouseMove_unfixed (q : Quantizer) (s : SelectionState) (loc : Point)
    (hdown : s.isMouseDown = true) (hfix : s.fixed = false) :
    selOnMouseMove q s loc =
      ({ s with visible := true, rect := marqueeRect q s.start loc }, []) := by
  obtain ⟨rect, fixed, visible, sel, down, start, off⟩ := s
  simp only at hdown hfix
  subst hdown hfix
  simp [selOnMouseMove]

/-- Running unfixed pointer-moves ending at `lastLoc` keeps the gesture
fields and leaves the rectangle at the marquee span from the gesture
start to `lastLoc`. -/
theorem selRunMoves_unfixed_last (q : Quantizer) (locs : List Point) (lastLoc : Point) :
    ∀ s : SelectionState, s.isMouseDown = true → s.fixed = false →
      selRunMoves q s (locs ++ [lastLoc]) =
        { s with visible := true, rect := marqueeRect q s.start lastLoc } := by
  induction locs with
  | nil =>
    intro s hdown hfix
    simp [selRunMoves, selOnMouseMove_unfixed q s lastLoc hdown hfix]
  | cons l rest ih =>
    intro s hdown hfix
    obtain ⟨rect, fixed, visible, sel, down, start, off⟩ := s
    simp only at hdown hfix
    subst hdown hfix
    have h1 := selOnMouseMove_unfixed q ⟨rect, false, visible, sel, true, start, off⟩ l rfl rfl
    have h2 := ih ⟨marqueeRect q start l, false, true, sel, true, start, off⟩ rfl rfl
    simp only [List.cons_append, selRunMoves, h1]
    simpa using h2

/-- After a pointer-down outside the rectangle the state is the reset
state: gesture started at `p`, unfixed, invisible, zero-size rectangle
at `p`. -/
theorem selOnMouseDown_outside (s : SelectionState) (p : Point)
    (hout : s.rect.containsPoint p = false) :
    (selOnMouseDown s p).1 =
      { rect := ⟨p.x, p.y, 0, 0⟩, fixed := false, visible := false,
        selectedNotes := s.selectedNotes, isMouseDown := true, start := p,
        dragOffset := ⟨p.x - p.x, p.y - p.y⟩ } := by
  obtain ⟨rect, fixed, visible, sel, down, start, off⟩ := s
  simp [selOnMouseDown, hout]

/-- C5: a marquee gesture — pointer-down outside the current selection,
zero or more moves, pointer-up with the rectangle not yet fixed — has
the pointer-up fix the rectangle and emit exactly one `onSelectNotes`,
whose argument is exactly the notes whose representative point the
final rectangle contains; with at least one move that rectangle is the
quantized marquee span from the down point to the last pointer
position, with no move it is the zero-size rectangle at the down
point. -/
theorem marquee_select_on_up (q : Quantizer) (notes : List Note) (s : SelectionState)
    (p : Point) (ev : ℕ) (hout : s.rect.containsPoint p = false) :
    (∀ (locs : List Point) (lastLoc : Point),
      (selOnMouseUp notes
          (selRunMoves q (selOnMouseDown s p).1 (locs ++ [lastLoc])) ev).2 =
        [Intent.SelectNotes (notes.filter fun n =>
          (marqueeRect q p lastLoc).containsPoint (notePoint n))] ∧
      (selOnMouseUp notes
          (selRunMoves q (selOnMouseDown s p).1 (locs ++ [lastLoc])) ev).1.fixed = true) ∧
    ((selOnMouseUp notes (selRunMoves q (selOnMouseDown s p).1 []) ev).2 =
      [Intent.SelectNotes (notes.filter fun n =>
        (⟨p.x, p.y, 0, 0⟩ : Rect).containsPoint (notePoint n))] ∧
     (selOnMouseUp notes (selRunMoves q (selOnMouseDown s p).1 []) ev).1.fixed = true) := by
  have hdown := selOnMouseDown_outside s p hout
  constructor
  · intro locs lastLoc
    rw [hdown, selRunMoves_unfixed_last q locs lastLoc _ rfl rfl]
    constructor
    · simp [selOnMouseUp]
    · simp [selOnMouseUp]
  · rw [hdown]
    constructor
    · simp [selRunMoves, selOnMouseUp]
    · simp [selRunMoves, selOnMouseUp]

/-- Witness for C5: from the empty initial state, down at `(5, 5)`, one
move to `(26, 27)` on a `(10, 12)` grid builds the marquee `(10, 0, 20,
24)`; pointer-up selects exactly the note at `(10, 12)` and not the one
at `(100, 100)`, and fixes the rectangle. -/
theorem marquee_select_on_up_witness :
    (selOnMouseUp [⟨1, 10, 12⟩, ⟨2, 100, 100⟩]
        (selRunMoves (specQuantizer 10 12)
          (selOnMouseDown ⟨⟨0, 0, 0, 0⟩, false, false, [], false, ⟨0, 0⟩, ⟨0, 0⟩⟩
            ⟨5, 5⟩).1 [⟨26, 27⟩]) 3).2 =
      [Intent.SelectNotes [⟨1, 10, 12⟩]] ∧
    (selOnMouseUp [⟨1, 10, 12⟩, ⟨2, 100, 100⟩]
        (selRunMoves (specQuantizer 10 12)
          (selOnMouseDown ⟨⟨0, 0, 0, 0⟩, false, false, [], false, ⟨0, 0⟩, ⟨0, 0⟩⟩
            ⟨5, 5⟩).1 [⟨26, 27⟩]) 3).1.fixed = true := by
  have h := (marquee_select_on_up (specQuantizer 10 12) [⟨1, 10, 12⟩, ⟨2, 100, 100⟩]
    ⟨⟨0, 0, 0, 0⟩, false, false, [], false, ⟨0, 0⟩, ⟨0, 0⟩⟩ ⟨5, 5⟩ 3
    (by norm_num [Rect.containsPoint])).1 [] ⟨26, 27⟩
  obtain ⟨h1, h2⟩ := h
  constructor
  · refine Eq.trans (by simpa using h1) ?_
    have hm : marqueeRect (specQuantizer 10 12) ⟨5, 5⟩ ⟨26, 27⟩ = ⟨10, 0, 20, 24⟩ := by
      norm_num [marqueeRect, Rect.fromPoints, specQuantizer, round_eq, abs_of_nonneg]
    rw [hm]
    norm_num [Rect.containsPoint, notePoint, List.filter]
  · simpa using h2

/-- C6, failing input: pointer-down at `(10, 10)` inside the fixed
rectangle `(0, 0, 50, 50)`, one pointer-move to `(30, 30)` (which emits
a genuine `onMoveNotes`), then pointer-up.  The source guards the
click-through branch with `!this.isMouseMoved`, but `isMouseMoved` is
never assigned anywhere in the class, so the guard always passes and
`onClickNotes` fires even though a move occurred during the gesture. -/
theorem click_through_fires_after_move :
    (selOnMouseDown ⟨⟨0, 0, 50, 50⟩, true, true, [⟨1, 5, 5⟩], false, ⟨0, 0⟩, ⟨0, 0⟩⟩
        ⟨10, 10⟩).2 = [] ∧
    (selOnMouseMove (specQuantizer 10 12)
        (selOnMouseDown ⟨⟨0, 0, 50, 50⟩, true, true, [⟨1, 5, 5⟩], false, ⟨0, 0⟩, ⟨0, 0⟩⟩
          ⟨10, 10⟩).1 ⟨30, 30⟩).2 =
      [Intent.MoveNotes [⟨1, 5, 5⟩] ⟨20, 24⟩] ∧
    (selOnMouseUp [⟨1, 5, 5⟩]
        (selOnMouseMove (specQuantizer 10 12)
          (selOnMouseDown ⟨⟨0, 0, 50, 50⟩, true, true, [⟨1, 5, 5⟩], false, ⟨0, 0⟩, ⟨0, 0⟩⟩
            ⟨10, 10⟩).1 ⟨30, 30⟩).1 7).2 =
      [Intent.ClickNotes [⟨1, 5, 5⟩] 7] := by
  have hdown : selOnMouseDown
      ⟨⟨0, 0, 50, 50⟩, true, true, [⟨1, 5, 5⟩], false, ⟨0, 0⟩, ⟨0, 0⟩⟩ ⟨10, 10⟩ =
      (⟨⟨0, 0, 50, 50⟩, true, true, [⟨1, 5, 5⟩], true, ⟨10, 10⟩, ⟨10, 10⟩⟩, []) := by
    norm_num [selOnMouseDown, Rect.containsPoint]
  have hmove : selOnMouseMove (specQuantizer 10 12)
      ⟨⟨0, 0, 50, 50⟩, true, true, [⟨1, 5, 5⟩], true, ⟨10, 10⟩, ⟨10, 10⟩⟩ ⟨30, 30⟩ =
      (⟨⟨20, 24, 50, 50⟩, true, true, [⟨1, 5, 5⟩], true, ⟨10, 10⟩, ⟨10, 10⟩⟩,
       [Intent.MoveNotes [⟨1, 5, 5⟩] ⟨20, 24⟩]) := by
    norm_num [selOnMouseMove, specQuantizer, round_eq]
  have hup : selOnMouseUp [⟨1, 5, 5⟩]
      ⟨⟨20, 24, 50, 50⟩, true, true, [⟨1, 5, 5⟩], true, ⟨10, 10⟩, ⟨10, 10⟩⟩ 7 =
      (⟨⟨20, 24, 50, 50⟩, true, true, [⟨1, 5, 5⟩], false, ⟨10, 10⟩, ⟨10, 10⟩⟩,
       [Intent.ClickNotes [⟨1, 5, 5⟩] 7]) := by
    norm_num [selOnMouseUp]
  refine ⟨by rw [hdown], ?_, ?_⟩
  · rw [hdown]
    simp only
    rw [hmove]
  · rw [hdown]
    simp only
    rw [hmove]
    simp only
    rw [hup]

/-- C7, counterexample: in the initial selection state (no pointer-down
ever observed, `isMouseDown = false`), a pointer-up is not a no-op — it
fixes the rectangle, recomputes the selection and calls
`onSelectNotes`. -/
theorem orphan_up_not_noop_cex :
    ((⟨⟨0, 0, 0, 0⟩, false, false, [], false, ⟨0, 0⟩, ⟨0, 0⟩⟩ :
        SelectionState).isMouseDown = false) ∧
    (selOnMouseUp [⟨1, 0, 0⟩]
        ⟨⟨0, 0, 0, 0⟩, false, false, [], false, ⟨0, 0⟩, ⟨0, 0⟩⟩ 0).2 =
      [Intent.SelectNotes [⟨1, 0, 0⟩]] ∧
    (selOnMouseUp [⟨1, 0, 0⟩]
        ⟨⟨0, 0, 0, 0⟩, false, false, [], false, ⟨0, 0⟩, ⟨0, 0⟩⟩ 0).1.fixed = true := by
  refine ⟨rfl, ?_, ?_⟩ <;>
    norm_num [selOnMouseUp, Rect.containsPoint, notePoint, List.filter]

/-- C7, amended: only `SelectionMouseHandler.onMouseMove` is guarded —
with no active gesture it returns the state unchanged and calls no
listener.  `SelectionMouseHandler.onMouseUp` is unguarded: regardless of
any prior pointer-down it fixes an unfixed rectangle and emits
`onSelectNotes` with the filtered notes, or emits `onClickNotes` when
the rectangle is fixed.  `PencilMouseHandler.onPressMoveNote` with no
recorded drag session faults on reading `this.dragPosition.type`. -/
theorem orphan_events_amended :
    (∀ (q : Quantizer) (s : SelectionState) (loc : Point),
      s.isMouseDown = false → selOnMouseMove q s loc = (s, [])) ∧
    (∀ (q : Quantizer) (s : PencilState) (e : NoteEvent),
      s.dragPosition = none → onPressMoveNote q s e = none) ∧
    (∀ (notes : List Note) (s : SelectionState) (ev : ℕ),
      s.fixed = false →
        (selOnMouseUp notes s ev).2 =
          [Intent.SelectNotes (notes.filter fun n =>
            s.rect.containsPoint (notePoint n))] ∧
        (selOnMouseUp notes s ev).1.fixed = true) ∧
    (∀ (notes : List Note) (s : SelectionState) (ev : ℕ),
      s.fixed = true →
        (selOnMouseUp notes s ev).2 = [Intent.ClickNotes s.selectedNotes ev]) := by
  refine ⟨?_, ?_, ?_, ?_⟩
  · intro q s loc h
    simp [selOnMouseMove, h]
  · intro q s e h
    simp [onPressMoveNote, h]
  · intro notes s ev h
    constructor <;> simp [selOnMouseUp, h]
  · intro notes s ev h
    simp [selOnMouseUp, h]

/-- Witness for the amended C7: each clause applied at a concrete
input — an idle selection state swallows a move; a pencil state without
a session faults on press-move; an unguarded pointer-up on an unfixed
(resp. fixed) state emits `onSelectNotes` (resp. `onClickNotes`). -/
theorem orphan_events_amended_witness :
    selOnMouseMove (specQuantizer 10 12)
        ⟨⟨0, 0, 0, 0⟩, false, false, [], false, ⟨0, 0⟩, ⟨0, 0⟩⟩ ⟨3, 4⟩ =
      (⟨⟨0, 0, 0, 0⟩, false, false, [], false, ⟨0, 0⟩, ⟨0, 0⟩⟩, []) ∧
    onPressMoveNote (specQuantizer 10 12) ⟨none⟩
        ⟨⟨1, 0, 0, 40, 12⟩, 2, 3, ⟨4, 5⟩⟩ = none ∧
    (selOnMouseUp []
        ⟨⟨0, 0, 0, 0⟩, false, false, [], true, ⟨0, 0⟩, ⟨0, 0⟩⟩ 0).2 =
      [Intent.SelectNotes []] ∧
    (selOnMouseUp []
        ⟨⟨0, 0, 0, 0⟩, true, true, [⟨9, 1, 1⟩], true, ⟨0, 0⟩, ⟨0, 0⟩⟩ 5).2 =
      [Intent.ClickNotes [⟨9, 1, 1⟩] 5] :=
  ⟨orphan_events_amended.1 (specQuantizer 10 12)
      ⟨⟨0, 0, 0, 0⟩, false, false, [], false, ⟨0, 0⟩, ⟨0, 0⟩⟩ ⟨3, 4⟩ rfl,
   orphan_events_amended.2.1 (specQuantizer 10 12) ⟨none⟩
      ⟨⟨1, 0, 0, 40, 12⟩, 2, 3, ⟨4, 5⟩⟩ rfl,
   (orphan_events_amended.2.2.1 []
      ⟨⟨0, 0, 0, 0⟩, false, false, [], true, ⟨0, 0⟩, ⟨0, 0⟩⟩ 0 rfl).1,
   orphan_events_amended.2.2.2 []
      ⟨⟨0, 0, 0, 0⟩, true, true, [⟨9, 1, 1⟩], true, ⟨0, 0⟩, ⟨0, 0⟩⟩ 5 rfl⟩

end Signal
